import Mathlib

/-!
# Verification of the trade-log repository's core logic

Shallow embedding of the PnL/outcome computation and the trade-record
validation pipeline of the `trade-log` web application:

* `computePnlWithSize` — the submit handler of the trade form variant that
  includes a user-entered position size (`src/app/page.tsx`, lines 466–475);
* `computePnlNoSize` — the submit handler of the variant without a position
  size field (`src/app/page.tsx`, lines 102–121);
* `TradesApi.POST` — the `POST /trades` route handler
  (`src/app/api/trades/route.ts`, lines 35–81);
* `TradeIdApi.GET` — the `GET /trades/{id}` route handler
  (`src/app/api/trades/[id]/route.ts`, lines 5–41).

JavaScript numbers are modelled as either NaN or an exact rational (`JsNum`);
untyped request-body values as `JsVal` (undefined, null, string, number, NaN),
with JavaScript truthiness made explicit.  Infinities do not arise in any of
the code paths modelled here and are omitted.
-/

/-- A JavaScript number: NaN, or a finite value modelled as an exact rational. -/
inductive JsNum where
  | nan : JsNum
  | val (q : ℚ) : JsNum
deriving DecidableEq, Repr

/-- JavaScript subtraction: NaN-propagating. -/
def JsNum.sub : JsNum → JsNum → JsNum
  | .val a, .val b => .val (a - b)
  | _, _ => .nan

/-- JavaScript multiplication: NaN-propagating (no infinities arise here). -/
def JsNum.mul : JsNum → JsNum → JsNum
  | .val a, .val b => .val (a * b)
  | _, _ => .nan

/-- JavaScript truthiness of a number: `0` and `NaN` are falsy. -/
def truthyNum : JsNum → Bool
  | .nan => false
  | .val q => q ≠ 0

/-- JavaScript `n > 0`: false when `n` is NaN. -/
def jsGtZero : JsNum → Bool
  | .nan => false
  | .val q => 0 < q

/-- JavaScript `n < 0`: false when `n` is NaN. -/
def jsLtZero : JsNum → Bool
  | .nan => false
  | .val q => q < 0

/-- The three-valued outcome tag of a trade. -/
inductive Outcome where
  | Profit | Loss | Breakeven
deriving DecidableEq, Repr

/-- The string the code stores for each outcome tag. -/
def outcomeStr : Outcome → String
  | .Profit => "Profit"
  | .Loss => "Loss"
  | .Breakeven => "Breakeven"

/-- The outcome derivation `pnl > 0 ? "Profit" : pnl < 0 ? "Loss" : "Breakeven"`
(src/app/page.tsx line 475; the same three-way branch appears at lines 114–120). -/
def outcomeOf (pnl : JsNum) : Outcome :=
  if jsGtZero pnl then .Profit else if jsLtZero pnl then .Loss else .Breakeven

/-- PnL/outcome computation of the trade-form submit handler that has a
user-entered position size (src/app/page.tsx lines 470–475):

```js
const pnl = exitPrice && entryPrice ? (exitPrice - entryPrice) * positionSize : 0
const outcome = pnl > 0 ? "Profit" : pnl < 0 ? "Loss" : "Breakeven"
```

`exitPrice` is `number | null` (`null` when the exit-price field was left
empty); the `exitPrice && entryPrice` guard is JavaScript truthiness, so a
present-but-zero (or NaN) price takes the `0` branch. -/
def computePnlWithSize (entryPrice : JsNum) (exitPrice : Option JsNum)
    (positionSize : JsNum) : JsNum × Outcome :=
  let pnl :=
    match exitPrice with
    | some x =>
        if truthyNum x && truthyNum entryPrice
        then JsNum.mul (JsNum.sub x entryPrice) positionSize
        else JsNum.val 0
    | none => JsNum.val 0
  (pnl, outcomeOf pnl)

/-- PnL/outcome computation of the trade-form submit handler without a
position-size field (src/app/page.tsx lines 106–121):

```js
let pnl = 0
let outcome = "Breakeven"
if (exitPrice && entryPrice) {
  pnl = exitPrice - entryPrice
  if (pnl > 0) outcome = "Profit"
  else if (pnl < 0) outcome = "Loss"
  else outcome = "Breakeven"
}
```

This variant posts `positionSize: 1` and never multiplies by it. -/
def computePnlNoSize (entryPrice : JsNum) (exitPrice : Option JsNum) :
    JsNum × Outcome :=
  match exitPrice with
  | some x =>
      if truthyNum x && truthyNum entryPrice then
        let pnl := JsNum.sub x entryPrice
        (pnl, outcomeOf pnl)
      else (JsNum.val 0, .Breakeven)
  | none => (JsNum.val 0, .Breakeven)

/-- An untyped JavaScript value as it may appear in a JSON request body field:
absent (`undefined`), `null`, a string, a finite number, or NaN. -/
inductive JsVal where
  | undef : JsVal
  | null : JsVal
  | str (s : String) : JsVal
  | num (q : ℚ) : JsVal
  | nanVal : JsVal
deriving DecidableEq, Repr

/-- JavaScript truthiness of an untyped value: `undefined`, `null`, `""`, `0`
and `NaN` are falsy. -/
def truthy : JsVal → Bool
  | .undef => false
  | .null => false
  | .str s => s ≠ ""
  | .num q => q ≠ 0
  | .nanVal => false

/-- The longest leading run of decimal digits of a character list, with the
rest of the list. -/
def takeDigits : List Char → List Char × List Char
  | [] => ([], [])
  | c :: cs =>
      if c.isDigit then
        let (d, r) := takeDigits cs
        (c :: d, r)
      else ([], c :: cs)

/-- Value of a list of decimal digit characters. -/
def digitsToNat (ds : List Char) : ℕ :=
  ds.foldl (fun acc c => 10 * acc + (c.toNat - 48)) 0

/-- JavaScript `parseFloat` on a string, for the fragment exercised by this
code base: optional leading spaces, an optional sign, then decimal digits with
an optional fraction, parsed as the longest valid prefix; anything that does
not start with a digit or `sign`/`.` followed by a digit yields NaN.
(Exponents, `Infinity` and non-space whitespace never occur in the inputs this
application feeds to `parseFloat` and are not modelled.) -/
def parseFloatStr (s : String) : JsNum :=
  let cs := s.data.dropWhile (fun c => c = ' ')
  let signed :=
    match cs with
    | '-' :: r => ((-1 : ℚ), r)
    | '+' :: r => ((1 : ℚ), r)
    | _ => ((1 : ℚ), cs)
  let (intDigits, rest) := takeDigits signed.2
  let fracDigits :=
    match rest with
    | '.' :: r => (takeDigits r).1
    | _ => []
  if intDigits = [] ∧ fracDigits = [] then .nan
  else
    .val (signed.1 *
      ((digitsToNat intDigits : ℚ) +
        (digitsToNat fracDigits : ℚ) / (10 : ℚ) ^ fracDigits.length))

/-- JavaScript `parseFloat` applied to an untyped body value: a number is
stringified and re-parsed (identity on finite numbers), a string is parsed,
and `undefined`/`null`/NaN parse to NaN. -/
def parseFloatVal : JsVal → JsNum
  | .num q => .val q
  | .str s => parseFloatStr s
  | .undef => .nan
  | .null => .nan
  | .nanVal => .nan

/-- A parsed number as it is sent back out in a JSON body field. -/
def jsValOfNum : JsNum → JsVal
  | .nan => .nanVal
  | .val q => .num q

/-- A `number | null` value as it is sent in a JSON body field. -/
def jsValOfOptNum : Option JsNum → JsVal
  | none => .null
  | some n => jsValOfNum n

/-- The JSON body of a `POST /trades` request: the fields the handler reads.
A field a caller does not send is `undef`. -/
structure RequestBody where
  cryptoName : JsVal
  entryDate : JsVal
  exitDate : JsVal
  entryPrice : JsVal
  exitPrice : JsVal
  positionSize : JsVal
  reason : JsVal
  notes : JsVal
  pnl : JsVal
  outcome : JsVal
deriving DecidableEq, Repr

/-- The row the handler hands to `prisma.trade.create`
(src/app/api/trades/route.ts lines 57–71).  `entryDate`/`exitDate` carry the
raw body value (the `new Date(...)` wrapping is opaque to every property
verified here); `userId` is the authenticated user's id. -/
structure TradeRecord where
  cryptoName : JsVal
  entryDate : JsVal
  exitDate : Option JsVal
  entryPrice : JsNum
  exitPrice : Option JsNum
  positionSize : JsNum
  reason : JsVal
  notes : Option JsVal
  pnl : JsVal
  outcome : JsVal
  userId : String
deriving DecidableEq, Repr

/-- Result of the `POST /trades` handler: 401, 400 `'Missing required
fields'`, or 201 with the persisted record. -/
inductive PostResult where
  | unauthorized : PostResult
  | missingFields : PostResult
  | created (t : TradeRecord) : PostResult
deriving DecidableEq, Repr

namespace TradesApi

/-- The `POST /trades` route handler (src/app/api/trades/route.ts lines
35–81): reject when unauthenticated (401); reject with 400 `'Missing required
fields'` when any of `cryptoName`, `entryDate`, `entryPrice`, `positionSize`
is falsy; otherwise persist the record built at lines 57–71, defaulting
`reason` to `''`, `notes` to `null`, `pnl` to `0` and `outcome` to
`'Breakeven'` when the corresponding body field is falsy. -/
def POST (user : Option String) (body : RequestBody) : PostResult :=
  match user with
  | none => .unauthorized
  | some uid =>
      if !truthy body.cryptoName || !truthy body.entryDate ||
          !truthy body.entryPrice || !truthy body.positionSize then
        .missingFields
      else
        .created
          { cryptoName := body.cryptoName
            entryDate := body.entryDate
            exitDate := if truthy body.exitDate then some body.exitDate else none
            entryPrice := parseFloatVal body.entryPrice
            exitPrice :=
              if truthy body.exitPrice then some (parseFloatVal body.exitPrice)
              else none
            positionSize := parseFloatVal body.positionSize
            reason := if truthy body.reason then body.reason else .str ""
            notes := if truthy body.notes then some body.notes else none
            pnl := if truthy body.pnl then body.pnl else .num 0
            outcome :=
              if truthy body.outcome then body.outcome else .str "Breakeven"
            userId := uid }

end TradesApi

/-- The record the `POST` handler persisted, when it did. -/
def resultRecord : PostResult → Option TradeRecord
  | .created t => some t
  | _ => none

/-- A stored trade row as `GET /trades/{id}` retrieves it. -/
structure StoredTrade where
  id : String
  userId : String
  data : TradeRecord
deriving DecidableEq, Repr

/-- Result of the `GET /trades/{id}` handler: 401, 404 `'Trade not found'`,
or 200 with the trade. -/
inductive GetResult where
  | unauthorized : GetResult
  | notFound : GetResult
  | ok (t : StoredTrade) : GetResult
deriving DecidableEq, Repr

namespace TradeIdApi

/-- The `GET /trades/{id}` route handler (src/app/api/trades/[id]/route.ts
lines 5–41): reject when unauthenticated (401); otherwise
`prisma.trade.findFirst({ where: { id, userId: user.id } })` — the first
stored row matching both the requested id and the requesting user — and 404
when there is none. -/
def GET (user : Option String) (db : List StoredTrade) (id : String) :
    GetResult :=
  match user with
  | none => .unauthorized
  | some uid =>
      match db.find? (fun t => t.id == id && t.userId == uid) with
      | none => .notFound
      | some t => .ok t

end TradeIdApi

/-- The request body built and posted by the trade-form submit handler with a
position-size field (src/app/page.tsx lines 484–495): `pnl` and `outcome` are
the values computed at lines 470–475, `notes` is posted as the (possibly
empty) form string.  The arguments are the handler's local values after the
`parseFloat` conversions at lines 466–468. -/
def formBodyWithSize (cryptoLabel entryDateIso : String)
    (exitDateIso : Option String) (entryPrice : JsNum) (exitPrice : Option JsNum)
    (positionSize : JsNum) (reason notes : String) : RequestBody :=
  { cryptoName := .str cryptoLabel
    entryDate := .str entryDateIso
    exitDate := match exitDateIso with | some d => .str d | none => .null
    entryPrice := jsValOfNum entryPrice
    exitPrice := jsValOfOptNum exitPrice
    positionSize := jsValOfNum positionSize
    reason := .str reason
    notes := .str notes
    pnl := jsValOfNum (computePnlWithSize entryPrice exitPrice positionSize).1
    outcome :=
      .str (outcomeStr (computePnlWithSize entryPrice exitPrice positionSize).2) }

/-- The request body built and posted by the trade-form submit handler
without a position-size field (src/app/page.tsx lines 130–141): it always
posts `positionSize: 1`, posts `notes: values.notes || null`, and `pnl` and
`outcome` are the values computed at lines 106–121. -/
def formBodyNoSize (cryptoLabel entryDateIso : String)
    (exitDateIso : Option String) (entryPrice : JsNum) (exitPrice : Option JsNum)
    (reason notes : String) : RequestBody :=
  { cryptoName := .str cryptoLabel
    entryDate := .str entryDateIso
    exitDate := match exitDateIso with | some d => .str d | none => .null
    entryPrice := jsValOfNum entryPrice
    exitPrice := jsValOfOptNum exitPrice
    positionSize := .num 1
    reason := .str reason
    notes := if notes = "" then .null else .str notes
    pnl := jsValOfNum (computePnlNoSize entryPrice exitPrice).1
    outcome := .str (outcomeStr (computePnlNoSize entryPrice exitPrice).2) }

/-- A persisted value is the strictly positive number (`pnl > 0` of the
data-model invariant, false on non-numbers and NaN as in JavaScript). -/
def valGtZero : JsVal → Bool
  | .num q => decide (0 < q)
  | _ => false

/-- A persisted value is a strictly negative number. -/
def valLtZero : JsVal → Bool
  | .num q => decide (q < 0)
  | _ => false

/-- A persisted value is the number `0`. -/
def valEqZero : JsVal → Bool
  | .num q => decide (q = 0)
  | _ => false

/-- The §3 data-model invariant on a persisted trade record:
`outcome = Profit` iff `pnl > 0`, `= Loss` iff `pnl < 0`, and `= Breakeven`
iff `pnl = 0` or exit data is absent. -/
def tradeInvariant (t : TradeRecord) : Prop :=
  (t.outcome = .str "Profit" ↔ valGtZero t.pnl = true) ∧
  (t.outcome = .str "Loss" ↔ valLtZero t.pnl = true) ∧
  (t.outcome = .str "Breakeven" ↔ (valEqZero t.pnl = true ∨ t.exitPrice = none))

/-- The §4.1 PnL rule exactly as the specification words it, over exact
numbers: absent exit price yields `(0, Breakeven)`, otherwise
`pnl = (exitPrice - entryPrice) * positionSize` with the outcome taken from
the sign of `pnl`.  Stated from the spec, to be compared with what the code
does. -/
def specCompute (entryPrice : ℚ) (exitPrice : Option ℚ) (positionSize : ℚ) :
    ℚ × Outcome :=
  match exitPrice with
  | none => (0, .Breakeven)
  | some x =>
      let pnl := (x - entryPrice) * positionSize
      (pnl, if 0 < pnl then .Profit else if pnl < 0 then .Loss else .Breakeven)

/-- A well-formed request body: all required fields truthy, an exit price
supplied, `pnl`/`outcome` not supplied by the caller. -/
def sampleBody : RequestBody :=
  { cryptoName := .str "Bitcoin"
    entryDate := .str "2024-01-01"
    exitDate := .null
    entryPrice := .num 100
    exitPrice := .num 150
    positionSize := .num 2
    reason := .str "breakout"
    notes := .null
    pnl := .undef
    outcome := .undef }

/-- A stored trade row owned by user `alice`. -/
def aliceTrade : TradeRecord :=
  { cryptoName := .str "Bitcoin"
    entryDate := .str "2024-01-01"
    exitDate := none
    entryPrice := .val 100
    exitPrice := some (.val 150)
    positionSize := .val 2
    reason := .str "breakout"
    notes := none
    pnl := .num 100
    outcome := .str "Profit"
    userId := "alice" }

/-- A one-row store whose only trade belongs to `alice`. -/
def aliceDb : List StoredTrade := [{ id := "t1", userId := "alice", data := aliceTrade }]

/-- Characterization of a successful `POST /trades`: the persisted record is
exactly the row built at src/app/api/trades/route.ts lines 57–71. -/
theorem POST_created_fields (uid : String) (body : RequestBody) (t : TradeRecord)
    (h : TradesApi.POST (some uid) body = .created t) :
    t = { cryptoName := body.cryptoName
          entryDate := body.entryDate
          exitDate := if truthy body.exitDate then some body.exitDate else none
          entryPrice := parseFloatVal body.entryPrice
          exitPrice :=
            if truthy body.exitPrice then some (parseFloatVal body.exitPrice)
            else none
          positionSize := parseFloatVal body.positionSize
          reason := if truthy body.reason then body.reason else .str ""
          notes := if truthy body.notes then some body.notes else none
          pnl := if truthy body.pnl then body.pnl else .num 0
          outcome := if truthy body.outcome then body.outcome else .str "Breakeven"
          userId := uid } := by
  simp only [TradesApi.POST] at h
  split at h
  · exact (PostResult.noConfusion h)
  · exact (PostResult.created.inj h).symm

/-- In both form variants the posted outcome is derived from the posted pnl
by the three-way sign branch. -/
theorem computePnlWithSize_snd (ep : JsNum) (xp : Option JsNum) (ps : JsNum) :
    (computePnlWithSize ep xp ps).2 = outcomeOf (computePnlWithSize ep xp ps).1 := by
  rcases xp with _ | x <;> rfl

theorem computePnlNoSize_snd (ep : JsNum) (xp : Option JsNum) :
    (computePnlNoSize ep xp).2 = outcomeOf (computePnlNoSize ep xp).1 := by
  rcases xp with _ | x
  · rfl
  · simp only [computePnlNoSize]
    split
    · rfl
    · rfl

/-- When the exit price the form would post is falsy (absent, `0`, or NaN),
the with-size computation takes the `0` branch. -/
theorem computePnlWithSize_exit_falsy (ep : JsNum) (xp : Option JsNum) (ps : JsNum)
    (h : truthy (jsValOfOptNum xp) = false) :
    computePnlWithSize ep xp ps = (.val 0, .Breakeven) := by
  rcases xp with _ | x
  · rfl
  · rcases x with _ | q
    · rfl
    · simp only [jsValOfOptNum, jsValOfNum, truthy, decide_eq_false_iff_not,
        Decidable.not_not] at h
      subst h
      rfl

/-- Same for the variant without a position size. -/
theorem computePnlNoSize_exit_falsy (ep : JsNum) (xp : Option JsNum)
    (h : truthy (jsValOfOptNum xp) = false) :
    computePnlNoSize ep xp = (.val 0, .Breakeven) := by
  rcases xp with _ | x
  · rfl
  · rcases x with _ | q
    · rfl
    · simp only [jsValOfOptNum, jsValOfNum, truthy, decide_eq_false_iff_not,
        Decidable.not_not] at h
      subst h
      rfl

/-- Core lemma for the data-model invariant: a record whose `pnl`, `outcome`
and `exitPrice` were persisted by the POST defaults from a body carrying a
computed pnl, its sign-derived outcome, and an exit value that is falsy only
when that outcome is `Breakeven`, satisfies the invariant. -/
theorem truthy_num (q : ℚ) : truthy (.num q) = decide (q ≠ 0) := rfl

theorem record_invariant_of_computed (t : TradeRecord) (pnl0 : JsNum)
    (exitV : Option JsNum)
    (hp : t.pnl = if truthy (jsValOfNum pnl0) then jsValOfNum pnl0 else .num 0)
    (ho : t.outcome = .str (outcomeStr (outcomeOf pnl0)))
    (hx : t.exitPrice =
      if truthy (jsValOfOptNum exitV) then
        some (parseFloatVal (jsValOfOptNum exitV))
      else none)
    (hc : truthy (jsValOfOptNum exitV) = false → outcomeOf pnl0 = .Breakeven) :
    tradeInvariant t := by
  unfold tradeInvariant
  rw [hp, ho, hx]
  rcases pnl0 with _ | p
  · simp [jsValOfNum, truthy, outcomeOf, jsGtZero, jsLtZero, outcomeStr,
      valGtZero, valLtZero, valEqZero]
  · rcases lt_trichotomy p 0 with hlt | heq | hgt
    · by_cases hex : truthy (jsValOfOptNum exitV) = true
      · simp [jsValOfNum, truthy_num, outcomeOf, jsGtZero, jsLtZero, outcomeStr,
          valGtZero, valLtZero, valEqZero, hlt, hlt.ne, lt_asymm hlt, hex]
      · have hb := hc (by simpa using hex)
        simp [outcomeOf, jsGtZero, jsLtZero, hlt, lt_asymm hlt] at hb
    · subst heq
      simp [jsValOfNum, truthy, outcomeOf, jsGtZero, jsLtZero, outcomeStr,
        valGtZero, valLtZero, valEqZero]
    · by_cases hex : truthy (jsValOfOptNum exitV) = true
      · simp [jsValOfNum, truthy_num, outcomeOf, jsGtZero, jsLtZero, outcomeStr,
          valGtZero, valLtZero, valEqZero, hgt, hgt.ne', lt_asymm hgt, hex]
      · have hb := hc (by simpa using hex)
        simp [outcomeOf, jsGtZero, jsLtZero, hgt, lt_asymm hgt] at hb

/-- Outcome strings are nonempty, hence truthy. -/
theorem truthy_outcomeStr (o : Outcome) : truthy (.str (outcomeStr o)) = true := by
  cases o <;> rfl

/-- A body with entry price `0` but otherwise well-formed. -/
def zeroPriceBody : RequestBody := { sampleBody with entryPrice := .num 0 }

/-- A body whose entry price is the non-numeric string `"abc"`. -/
def nanBody : RequestBody := { sampleBody with entryPrice := .str "abc" }

/-- The record `POST` persists for `nanBody`: entry price NaN. -/
def nanTrade : TradeRecord :=
  { cryptoName := .str "Bitcoin"
    entryDate := .str "2024-01-01"
    exitDate := none
    entryPrice := .nan
    exitPrice := some (.val 150)
    positionSize := .val 2
    reason := .str "breakout"
    notes := none
    pnl := .num 0
    outcome := .str "Breakeven"
    userId := "u" }

/-- **C7.** For every entry price `p` and position size `s`, the PnL
computation with exit price absent returns pnl = 0 and outcome `Breakeven`,
in both observed form variants. -/
theorem absent_exit_yields_zero_breakeven (p s : JsNum) :
    computePnlWithSize p none s = (JsNum.val 0, Outcome.Breakeven) ∧
    computePnlNoSize p none = (JsNum.val 0, Outcome.Breakeven) :=
  ⟨rfl, rfl⟩

/-- **C9.** The two observed trade-form submit handlers are not equivalent:
for entry 100, exit 150, the variant that multiplies by a user-entered
position size 2 computes pnl 100, while the variant that fixes the position
size to 1 computes pnl 50. -/
theorem form_variants_disagree_on_pnl :
    (computePnlWithSize (JsNum.val 100) (some (JsNum.val 150)) (JsNum.val 2)).1
      = JsNum.val 100 ∧
    (computePnlNoSize (JsNum.val 100) (some (JsNum.val 150))).1 = JsNum.val 50 ∧
    JsNum.val 100 ≠ JsNum.val 50 := by
  refine ⟨?_, ?_, by decide⟩
  · norm_num [computePnlWithSize, truthyNum, JsNum.sub, JsNum.mul]
  · norm_num [computePnlNoSize, truthyNum, JsNum.sub]

/-- **C10.** A `POST /trades` body in which `entryPrice` or `positionSize` is
the JSON number `0` or the empty string is rejected with 400 `'Missing
required fields'`: presence is tested by JavaScript truthiness, which `0` and
`""` fail. -/
theorem zero_or_empty_required_field_rejected (uid : String) (body : RequestBody)
    (h : body.entryPrice = JsVal.num 0 ∨ body.entryPrice = JsVal.str "" ∨
      body.positionSize = JsVal.num 0 ∨ body.positionSize = JsVal.str "") :
    TradesApi.POST (some uid) body = PostResult.missingFields := by
  simp only [TradesApi.POST]
  rcases h with h | h | h | h <;> simp [h, truthy]

theorem zero_or_empty_required_field_rejected_witness :
    zeroPriceBody.entryPrice = JsVal.num 0 ∧
    TradesApi.POST (some "u") zeroPriceBody = PostResult.missingFields :=
  ⟨rfl, zero_or_empty_required_field_rejected "u" zeroPriceBody (Or.inl rfl)⟩

/-- **C8.** For every authenticated `GET /trades/{id}` request where no
stored trade has both the requested id and the requesting user's id, the
handler returns 404; and whenever it returns a trade, that trade belongs to
the requesting user. -/
theorem get_trade_scoped_to_owner (uid : String) (db : List StoredTrade)
    (id : String) :
    ((∀ t ∈ db, t.id = id → t.userId ≠ uid) →
      TradeIdApi.GET (some uid) db id = GetResult.notFound) ∧
    (∀ t, TradeIdApi.GET (some uid) db id = GetResult.ok t → t.userId = uid) := by
  constructor
  · intro h
    simp only [TradeIdApi.GET]
    have hn : db.find? (fun t => t.id == id && t.userId == uid) = none := by
      rw [List.find?_eq_none]
      intro t ht hc
      simp only [Bool.and_eq_true, beq_iff_eq] at hc
      exact h t ht hc.1 hc.2
    rw [hn]
  · intro t h
    simp only [TradeIdApi.GET] at h
    rcases hf : db.find? (fun t => t.id == id && t.userId == uid) with _ | t'
    · rw [hf] at h
      exact GetResult.noConfusion h
    · rw [hf] at h
      have hp := List.find?_some hf
      simp only [Bool.and_eq_true, beq_iff_eq] at hp
      cases h
      exact hp.2

theorem get_trade_scoped_to_owner_witness :
    TradeIdApi.GET (some "bob") aliceDb "t1" = GetResult.notFound :=
  (get_trade_scoped_to_owner "bob" aliceDb "t1").1 (by decide)

/-- **C4** (the code evaluated at the failing input): a body whose
`entryPrice` is the non-numeric string `"abc"` passes the truthiness check,
is never rejected with an `InvalidNumber` error, and a record with
`entryPrice = NaN` is persisted with 201. -/
theorem nan_entry_price_persisted :
    TradesApi.POST (some "u") nanBody = PostResult.created nanTrade ∧
    nanTrade.entryPrice = JsNum.nan :=
  ⟨by decide, rfl⟩

/-- When both prices are nonzero (hence truthy) the guarded multiplication
branch is taken. -/
theorem computePnlWithSize_of_nonzero (e x : ℚ) (s : JsNum) (he : e ≠ 0)
    (hx : x ≠ 0) :
    computePnlWithSize (.val e) (some (.val x)) s =
      (JsNum.mul (.val (x - e)) s, outcomeOf (JsNum.mul (.val (x - e)) s)) := by
  simp [computePnlWithSize, truthyNum, he, hx, JsNum.sub]

theorem computePnlNoSize_of_nonzero (e x : ℚ) (he : e ≠ 0) (hx : x ≠ 0) :
    computePnlNoSize (.val e) (some (.val x)) =
      (.val (x - e), outcomeOf (.val (x - e))) := by
  simp [computePnlNoSize, truthyNum, he, hx, JsNum.sub]

/-- The outcome branch on a finite pnl, written over the rational itself. -/
theorem outcomeOf_val (q : ℚ) :
    outcomeOf (.val q) =
      if 0 < q then Outcome.Profit
      else if q < 0 then Outcome.Loss else Outcome.Breakeven := by
  simp [outcomeOf, jsGtZero, jsLtZero]

/-- **C1 counterexample.** A submission whose exit price is present but equal
to `0` (entry 100, size 2) computes pnl `0`/`Breakeven`, not the claimed
`(0 - 100) * 2 = -200` with outcome `Loss`: the `exitPrice && entryPrice`
guard treats the present value `0` as absent. -/
theorem pnl_formula_fails_at_zero_exit :
    computePnlWithSize (JsNum.val 100) (some (JsNum.val 0)) (JsNum.val 2)
      = (JsNum.val 0, Outcome.Breakeven) ∧
    ((0 : ℚ) - 100) * 2 = -200 ∧
    JsNum.val 0 ≠ JsNum.val (-200 : ℚ) := by
  refine ⟨by decide, by norm_num, by decide⟩

/-- **C1 (amended).** For every submission whose exit price is present and
nonzero and whose entry price is nonzero, the computed pnl is
`(exitPrice - entryPrice) * positionSize` (the no-size variant uses its
constant position size 1), and the outcome is `Profit` if pnl > 0, `Loss` if
pnl < 0, else `Breakeven`. -/
theorem pnl_formula_for_nonzero_prices (e x s : ℚ) (he : e ≠ 0) (hx : x ≠ 0) :
    computePnlWithSize (JsNum.val e) (some (JsNum.val x)) (JsNum.val s)
      = (JsNum.val ((x - e) * s),
         if 0 < (x - e) * s then Outcome.Profit
         else if (x - e) * s < 0 then Outcome.Loss else Outcome.Breakeven) ∧
    computePnlNoSize (JsNum.val e) (some (JsNum.val x))
      = (JsNum.val ((x - e) * 1),
         if 0 < (x - e) * 1 then Outcome.Profit
         else if (x - e) * 1 < 0 then Outcome.Loss else Outcome.Breakeven) := by
  constructor
  · rw [computePnlWithSize_of_nonzero e x (JsNum.val s) he hx]
    simp [JsNum.mul, outcomeOf_val]
  · rw [computePnlNoSize_of_nonzero e x he hx, outcomeOf_val]
    simp

theorem pnl_formula_for_nonzero_prices_witness :
    (100 : ℚ) ≠ 0 ∧ (150 : ℚ) ≠ 0 ∧
    computePnlWithSize (JsNum.val 100) (some (JsNum.val 150)) (JsNum.val 2)
      = (JsNum.val 100, Outcome.Profit) := by
  refine ⟨by norm_num, by norm_num, ?_⟩
  have h := (pnl_formula_for_nonzero_prices 100 150 2 (by norm_num) (by norm_num)).1
  rw [h]
  norm_num

/-- **C6 counterexample.** With entry price `0` (present and finite), exit
price `5` and position size `1 > 0`, the computed pnl is `0`, whose sign is
not the sign of `exitPrice - entryPrice = 5`: the truthiness guard zeroes the
pnl. -/
theorem pnl_sign_fails_at_zero_entry :
    computePnlWithSize (JsNum.val 0) (some (JsNum.val 5)) (JsNum.val 1)
      = (JsNum.val 0, Outcome.Breakeven) ∧
    (0 : ℚ) < 5 - 0 ∧ ¬ (0 : ℚ) < 0 ∧ (0 : ℚ) < 1 := by
  refine ⟨by decide, by norm_num, by norm_num, by norm_num⟩

/-- **C6 (amended).** For all finite nonzero entry and exit prices and every
position size `s > 0`, the computed pnl is `(x - e) * s` and its sign equals
the sign of `x - e`. -/
theorem pnl_sign_matches_price_difference (e x s : ℚ) (he : e ≠ 0) (hx : x ≠ 0)
    (hs : 0 < s) :
    (computePnlWithSize (JsNum.val e) (some (JsNum.val x)) (JsNum.val s)).1
      = JsNum.val ((x - e) * s) ∧
    (0 < (x - e) * s ↔ 0 < x - e) ∧
    ((x - e) * s < 0 ↔ x - e < 0) ∧
    ((x - e) * s = 0 ↔ x - e = 0) := by
  refine ⟨?_, ?_, ?_, ?_⟩
  · rw [computePnlWithSize_of_nonzero e x (JsNum.val s) he hx]
    simp [JsNum.mul]
  · constructor
    · intro h
      by_contra hc
      push_neg at hc
      nlinarith
    · intro h
      exact mul_pos h hs
  · constructor
    · intro h
      by_contra hc
      push_neg at hc
      nlinarith
    · intro h
      exact mul_neg_of_neg_of_pos h hs
  · rw [mul_eq_zero]
    simp [hs.ne']

theorem pnl_sign_matches_price_difference_witness :
    (100 : ℚ) ≠ 0 ∧ (150 : ℚ) ≠ 0 ∧ (0 : ℚ) < 2 ∧
    ((computePnlWithSize (JsNum.val 100) (some (JsNum.val 150)) (JsNum.val 2)).1
        = JsNum.val (((150 : ℚ) - 100) * 2) ∧
      (0 < ((150 : ℚ) - 100) * 2 ↔ 0 < (150 : ℚ) - 100) ∧
      (((150 : ℚ) - 100) * 2 < 0 ↔ (150 : ℚ) - 100 < 0) ∧
      (((150 : ℚ) - 100) * 2 = 0 ↔ (150 : ℚ) - 100 = 0)) :=
  ⟨by norm_num, by norm_num, by norm_num,
    pnl_sign_matches_price_difference 100 150 2 (by norm_num) (by norm_num)
      (by norm_num)⟩

/-- A body that supplies `pnl = 5` together with `outcome = "Loss"`. -/
def inconsistentBody : RequestBody :=
  { sampleBody with pnl := .num 5, outcome := .str "Loss" }

/-- The record `POST` persists for `inconsistentBody`. -/
def inconsistentTrade : TradeRecord :=
  { cryptoName := .str "Bitcoin"
    entryDate := .str "2024-01-01"
    exitDate := none
    entryPrice := .val 100
    exitPrice := some (.val 150)
    positionSize := .val 2
    reason := .str "breakout"
    notes := none
    pnl := .num 5
    outcome := .str "Loss"
    userId := "u" }

/-- **C2 counterexample.** The POST handler persists whatever `pnl` and
`outcome` the body supplies, with no cross-check: a body carrying `pnl = 5`
and `outcome = "Loss"` is persisted as-is, violating the invariant. -/
theorem post_persists_inconsistent_outcome :
    TradesApi.POST (some "u") inconsistentBody
      = PostResult.created inconsistentTrade ∧
    ¬ tradeInvariant inconsistentTrade := by
  refine ⟨by decide, ?_⟩
  unfold tradeInvariant
  decide

/-- **C2 (amended).** Every record the POST handler persists from a body
built by either trade-form submit handler — whose `pnl` and `outcome` come
from the form's own sign computation — satisfies the §3 invariant; the
handler itself preserves it only because those bodies carry consistent
values. -/
theorem form_pipeline_records_satisfy_invariant (uid cl ed rs nt : String)
    (exd : Option String) (ep : JsNum) (xp : Option JsNum) (ps : JsNum)
    (t : TradeRecord) :
    (TradesApi.POST (some uid) (formBodyWithSize cl ed exd ep xp ps rs nt)
        = PostResult.created t → tradeInvariant t) ∧
    (TradesApi.POST (some uid) (formBodyNoSize cl ed exd ep xp rs nt)
        = PostResult.created t → tradeInvariant t) := by
  constructor
  · intro h
    have ht := POST_created_fields _ _ _ h
    subst ht
    refine record_invariant_of_computed _ (computePnlWithSize ep xp ps).1 xp
      rfl ?_ rfl ?_
    · show (if truthy (JsVal.str (outcomeStr (computePnlWithSize ep xp ps).2)) = true
          then JsVal.str (outcomeStr (computePnlWithSize ep xp ps).2)
          else JsVal.str "Breakeven")
        = JsVal.str (outcomeStr (outcomeOf (computePnlWithSize ep xp ps).1))
      rw [truthy_outcomeStr, if_pos rfl, computePnlWithSize_snd]
    · intro hfalse
      rw [computePnlWithSize_exit_falsy ep xp ps hfalse]
      rfl
  · intro h
    have ht := POST_created_fields _ _ _ h
    subst ht
    refine record_invariant_of_computed _ (computePnlNoSize ep xp).1 xp
      rfl ?_ rfl ?_
    · show (if truthy (JsVal.str (outcomeStr (computePnlNoSize ep xp).2)) = true
          then JsVal.str (outcomeStr (computePnlNoSize ep xp).2)
          else JsVal.str "Breakeven")
        = JsVal.str (outcomeStr (outcomeOf (computePnlNoSize ep xp).1))
      rw [truthy_outcomeStr, if_pos rfl, computePnlNoSize_snd]
    · intro hfalse
      rw [computePnlNoSize_exit_falsy ep xp hfalse]
      rfl

/-- The record persisted for the variant-A form submission with entry 100,
exit 150, size 2. -/
def pipelineTrade : TradeRecord :=
  { cryptoName := .str "Bitcoin"
    entryDate := .str "2024-01-01"
    exitDate := none
    entryPrice := .val 100
    exitPrice := some (.val 150)
    positionSize := .val 2
    reason := .str "breakout"
    notes := none
    pnl := .num 100
    outcome := .str "Profit"
    userId := "u" }

theorem form_pipeline_records_satisfy_invariant_witness :
    TradesApi.POST (some "u")
        (formBodyWithSize "Bitcoin" "2024-01-01" none (JsNum.val 100)
          (some (JsNum.val 150)) (JsNum.val 2) "breakout" "")
      = PostResult.created pipelineTrade ∧
    tradeInvariant pipelineTrade := by
  constructor
  · norm_num [TradesApi.POST, formBodyWithSize, computePnlWithSize, truthyNum,
      truthy, JsNum.sub, JsNum.mul, jsValOfNum, jsValOfOptNum, parseFloatVal,
      outcomeOf, jsGtZero, jsLtZero, outcomeStr, pipelineTrade]
    decide
  · exact (form_pipeline_records_satisfy_invariant "u" "Bitcoin" "2024-01-01"
      "breakout" "" none (JsNum.val 100) (some (JsNum.val 150)) (JsNum.val 2)
      pipelineTrade).1
      (by
        norm_num [TradesApi.POST, formBodyWithSize, computePnlWithSize,
          truthyNum, truthy, JsNum.sub, JsNum.mul, jsValOfNum, jsValOfOptNum,
          parseFloatVal, outcomeOf, jsGtZero, jsLtZero, outcomeStr, pipelineTrade]
        decide)

/-- A body identical to `sampleBody` but with no `reason` field. -/
def reasonlessBody : RequestBody := { sampleBody with reason := .undef }

/-- The record `POST` persists for `reasonlessBody`: reason defaulted to `''`. -/
def reasonlessTrade : TradeRecord :=
  { cryptoName := .str "Bitcoin"
    entryDate := .str "2024-01-01"
    exitDate := none
    entryPrice := .val 100
    exitPrice := some (.val 150)
    positionSize := .val 2
    reason := .str ""
    notes := none
    pnl := .num 0
    outcome := .str "Breakeven"
    userId := "u" }

/-- **C3 counterexample.** A submission missing `reason` is not rejected: the
handler persists it with `reason` defaulted to the empty string, so no
`MissingField("reason")` failure occurs. -/
theorem missing_reason_accepted :
    TradesApi.POST (some "u") reasonlessBody
      = PostResult.created reasonlessTrade ∧
    reasonlessTrade.reason = JsVal.str "" :=
  ⟨by decide, rfl⟩

/-- **C3 (amended).** A submission missing (by JavaScript truthiness) any of
`cryptoName`, `entryDate`, `entryPrice` or `positionSize` fails with the
single 400 error `'Missing required fields'`, which does not name the field;
a submission missing `reason` is not rejected — any record persisted for it
has `reason` defaulted to the empty string. -/
theorem required_field_validation (uid : String) (body : RequestBody) :
    ((truthy body.cryptoName = false ∨ truthy body.entryDate = false ∨
        truthy body.entryPrice = false ∨ truthy body.positionSize = false) →
      TradesApi.POST (some uid) body = PostResult.missingFields) ∧
    (body.reason = JsVal.undef → ∀ t,
      TradesApi.POST (some uid) body = PostResult.created t →
      t.reason = JsVal.str "") := by
  constructor
  · intro h
    simp only [TradesApi.POST]
    rcases h with h | h | h | h <;> simp [h]
  · intro hr t h
    rw [POST_created_fields uid body t h]
    simp [hr, truthy]

theorem required_field_validation_witness :
    reasonlessBody.reason = JsVal.undef ∧
    reasonlessTrade.reason = JsVal.str "" :=
  ⟨rfl,
    (required_field_validation "u" reasonlessBody).2 rfl reasonlessTrade
      (by decide)⟩

/-- The record `POST` persists for `sampleBody` (no caller-supplied
`pnl`/`outcome`). -/
def defaultedTrade : TradeRecord :=
  { cryptoName := .str "Bitcoin"
    entryDate := .str "2024-01-01"
    exitDate := none
    entryPrice := .val 100
    exitPrice := some (.val 150)
    positionSize := .val 2
    reason := .str "breakout"
    notes := none
    pnl := .num 0
    outcome := .str "Breakeven"
    userId := "u" }

/-- **C5 counterexample.** For a valid submission (entry 100, exit 150, size
2) that does not supply `pnl`/`outcome`, the handler persists the defaults
`pnl = 0`, `outcome = 'Breakeven'` — not the §4.1 values `(100, Profit)`. -/
theorem post_ignores_pnl_rule :
    TradesApi.POST (some "u") sampleBody = PostResult.created defaultedTrade ∧
    specCompute 100 (some 150) 2 = (100, Outcome.Profit) ∧
    defaultedTrade.pnl = JsVal.num 0 ∧
    defaultedTrade.outcome = JsVal.str "Breakeven" ∧
    (0 : ℚ) ≠ 100 := by
  refine ⟨by decide, ?_, rfl, rfl, by norm_num⟩
  norm_num [specCompute]

/-- **C5 (amended).** For every valid submission that supplies none of `pnl`,
`outcome` and `notes`, the persisted record has `notes` defaulted to absent
and `pnl`/`outcome` defaulted to `0`/`'Breakeven'`; the handler does not
recompute them by the §4.1 rule (the defaults agree with §4.1 only when exit
data is absent). -/
theorem post_defaults_when_not_supplied (uid : String) (body : RequestBody)
    (t : TradeRecord) (hp : body.pnl = JsVal.undef)
    (ho : body.outcome = JsVal.undef) (hn : body.notes = JsVal.undef)
    (h : TradesApi.POST (some uid) body = PostResult.created t) :
    t.notes = none ∧ t.pnl = JsVal.num 0 ∧ t.outcome = JsVal.str "Breakeven" := by
  rw [POST_created_fields uid body t h]
  simp [hp, ho, hn, truthy]

/-- A body supplying none of `pnl`, `outcome`, `notes`. -/
def bareBody : RequestBody := { sampleBody with notes := .undef }

theorem post_defaults_when_not_supplied_witness :
    bareBody.pnl = JsVal.undef ∧ bareBody.outcome = JsVal.undef ∧
    bareBody.notes = JsVal.undef ∧
    (defaultedTrade.notes = none ∧ defaultedTrade.pnl = JsVal.num 0 ∧
      defaultedTrade.outcome = JsVal.str "Breakeven") :=
  ⟨rfl, rfl, rfl,
    post_defaults_when_not_supplied "u" bareBody defaultedTrade rfl rfl rfl
      (by decide)⟩
